import Mathlib

/-!
Shallow embedding of `src/components/script/dom/webgltexture.rs` (Servo's
`WebGLTexture` DOM object): the texture state machine, its image-info table,
mipmap generation, parameter validation, and deletion.  Machine integers
(`u32`, `u8`) are embedded as `Nat`; the only arithmetic the module performs
on them (division by two, `max`, small additions of level counts) never
overflows 32 bits, so no explicit wrap-around is needed.  Commands sent to
the WebGL executor and collaborator callbacks are recorded as an ordered
event trace.
-/

namespace WebGLTex

/-- Modelled from the spec: the three synchronously returned validation
outcomes (`WebGLError` lives in the external `canvas_traits` crate, not in
this repository's sources). -/
inductive WebGLError where
  | InvalidEnum
  | InvalidOperation
  | InvalidValue
  deriving DecidableEq, Repr

/-- Modelled from the spec: `TexFormat` is defined in the external
`canvas_traits` crate.  The texture module observes only equality of formats
and the `is_compressed` predicate, so a format is an opaque code together
with its compressed flag. -/
structure TexFormat where
  code : Nat
  compressed : Bool
  deriving DecidableEq, Repr

def TexFormat.is_compressed (f : TexFormat) : Bool := f.compressed

/-- Modelled from the spec: `TexDataType` is defined in the external
`canvas_traits` crate; the texture module only stores and copies it, so it
is an opaque code. -/
structure TexDataType where
  code : Nat
  deriving DecidableEq, Repr

-- Modelled from the WebGL IDL: the symbolic GLES constants referenced by
-- `webgltexture.rs` (the binding codegen that defines them is not under the
-- sources).  Their exact values are the standard GLES2 ones; the code relies
-- only on their distinctness.
namespace constants

def TEXTURE_2D : Nat := 0x0DE1
def TEXTURE_CUBE_MAP : Nat := 0x8513
def NEAREST : Nat := 0x2600
def LINEAR : Nat := 0x2601
def NEAREST_MIPMAP_NEAREST : Nat := 0x2700
def LINEAR_MIPMAP_NEAREST : Nat := 0x2701
def NEAREST_MIPMAP_LINEAR : Nat := 0x2702
def LINEAR_MIPMAP_LINEAR : Nat := 0x2703
def TEXTURE_MAG_FILTER : Nat := 0x2800
def TEXTURE_MIN_FILTER : Nat := 0x2801
def TEXTURE_WRAP_S : Nat := 0x2802
def TEXTURE_WRAP_T : Nat := 0x2803
def CLAMP_TO_EDGE : Nat := 0x812F
def MIRRORED_REPEAT : Nat := 0x8370
def REPEAT : Nat := 0x2901
def TEXTURE_MAX_ANISOTROPY_EXT : Nat := 0x84FE

end constants

def MAX_LEVEL_COUNT : Nat := 31
def MAX_FACE_COUNT : Nat := 6

/-- Embeds `ImageInfo` (webgltexture.rs, lines 416-424): metadata for one
(level, face) slot. -/
structure ImageInfo where
  width : Nat
  height : Nat
  depth : Nat
  internal_format : Option TexFormat
  is_initialized : Bool
  data_type : Option TexDataType
  deriving DecidableEq, Repr

namespace ImageInfo

/-- Embeds `ImageInfo::new` (lines 427-436). -/
def new : ImageInfo :=
  { width := 0
    height := 0
    depth := 0
    internal_format := none
    is_initialized := false
    data_type := none }

/-- Embeds `u32::is_power_of_two`: true iff the value has exactly one bit set,
embedded by the same bit trick (`n != 0 && n & (n - 1) == 0`). -/
def natIsPowerOfTwo (n : Nat) : Bool := n != 0 && (n &&& (n - 1)) == 0

/-- Embeds `ImageInfo::is_power_of_two` (lines 454-458). -/
def is_power_of_two (i : ImageInfo) : Bool :=
  natIsPowerOfTwo i.width && natIsPowerOfTwo i.height && natIsPowerOfTwo i.depth

/-- Embeds `ImageInfo::is_defined` (lines 464-466). -/
def is_defined (i : ImageInfo) : Bool := i.internal_format.isSome

/-- Computes floor(log2 n) for n ≥ 1 (and 0 at 0) by repeated halving; the
first argument is fuel, always called with fuel ≥ the number of halvings. -/
def floorLog2Aux : Nat → Nat → Nat
  | 0, _ => 0
  | fuel + 1, n => if 2 ≤ n then floorLog2Aux fuel (n / 2) + 1 else 0

/-- Floor of the base-2 logarithm, total with value 0 at 0. -/
def floorLog2 (n : Nat) : Nat := floorLog2Aux n n

/-- Embeds `ImageInfo::get_max_mimap_levels` (lines 468-475).  The source computes
`(largest as f64).log2() as u32 + 1` on a nonzero `u32`; a `u32` converts to
`f64` exactly and the correctly rounded `log2` of a `u32` value truncates to
`floor(log2 largest)` (the rounded logarithm of a non-power-of-two `u32`
never reaches the next integer), so the expression is `floorLog2 largest + 1`. -/
def get_max_mimap_levels (i : ImageInfo) : Nat :=
  let largest := max (max i.width i.height) i.depth
  if largest = 0 then 0 else floorLog2 largest + 1

/-- Embeds `ImageInfo::is_compressed_format` (lines 477-482). -/
def is_compressed_format (i : ImageInfo) : Bool :=
  match i.internal_format with
  | some format => format.is_compressed
  | none => false

end ImageInfo

/-- Embeds `TexImageTarget` (from `webgl_validations::types`, consumed by
`initialize`): the seven per-face upload targets. -/
inductive TexImageTarget where
  | Texture2D
  | CubeMapPositiveX
  | CubeMapNegativeX
  | CubeMapPositiveY
  | CubeMapNegativeY
  | CubeMapPositiveZ
  | CubeMapNegativeZ
  deriving DecidableEq, Repr

/-- An IEEE-754 `f32` value as the texture module observes it: NaN, the two
infinities, or a finite value (every finite `f32` is a rational number, and
`f32` comparison of finite values is exact rational comparison). -/
inductive F32 where
  | nan
  | inf
  | neginf
  | finite (q : ℚ)
  deriving DecidableEq

/-- IEEE-754 `>=` against `1.0`: false for NaN (any comparison with NaN is
false), exact rational comparison on finite values. -/
def F32.ge1 : F32 → Bool
  | .nan => false
  | .inf => true
  | .neginf => false
  | .finite q => decide (1 ≤ q)

/-- Embeds `TexParameterValue` (lines 23-26). -/
inductive TexParameterValue where
  | Float (f : F32)
  | Int (i : Int)
  deriving DecidableEq

/-- The commands the module sends on the WebGL command channel
(`canvas_traits::webgl::WebGLCommand`, restricted to the variants this file
emits). -/
inductive WebGLCommand where
  | BindTexture (target : Nat) (id : Option Nat)
  | TexParameteri (target : Nat) (param : Nat) (value : Int)
  | TexParameterf (target : Nat) (param : Nat) (value : F32)
  | GenerateMipmap (target : Nat)
  | DeleteTexture (id : Nat)
  deriving DecidableEq

/-- Observable effects of an operation, in emission order: a command placed
on the (ordered, FIFO) channel to the executor, the DOMToTexture detach
notification, or the synchronous invocation of the currently bound
framebuffer's `detach_texture` hook. -/
inductive TexEvent where
  | cmd (c : WebGLCommand)
  | domDetach (id : Nat)
  | fbDetach (id : Nat)
  deriving DecidableEq

/-- The mutable state of one `WebGLTexture` (lines 33-51).  The
`image_info_array` is the fixed `MAX_LEVEL_COUNT * MAX_FACE_COUNT` table;
it is kept as a list of that length. -/
structure WebGLTextureState where
  id : Nat
  target : Option Nat
  is_deleted : Bool
  image_info_array : List ImageInfo
  face_count : Nat
  base_mipmap_level : Nat
  min_filter : Nat
  mag_filter : Nat
  attached_to_dom : Bool
  deriving DecidableEq

namespace WebGLTextureState

/-- Embeds `WebGLTexture::new_inherited` (lines 54-67). -/
def new_inherited (id : Nat) : WebGLTextureState :=
  { id := id
    target := none
    is_deleted := false
    face_count := 0
    base_mipmap_level := 0
    min_filter := constants.NEAREST_MIPMAP_LINEAR
    mag_filter := constants.LINEAR
    image_info_array := List.replicate (MAX_LEVEL_COUNT * MAX_FACE_COUNT) ImageInfo.new
    attached_to_dom := false }

/-- Embeds `WebGLTexture::image_info_at_face` (lines 382-385).  The source indexes
the array directly (a panic on an out-of-range position); every access made
by the verified operations is in bounds, so the default-on-out-of-range
lookup coincides with the source there. -/
def image_info_at_face (s : WebGLTextureState) (face : Nat) (level : Nat) : ImageInfo :=
  s.image_info_array.getD (level * s.face_count + face) ImageInfo.new

/-- Embeds `WebGLTexture::set_image_infos_at_level_and_face` (lines 393-397). -/
def set_image_infos_at_level_and_face (s : WebGLTextureState) (level : Nat) (face : Nat)
    (image_info : ImageInfo) : WebGLTextureState :=
  { s with image_info_array :=
      s.image_info_array.set (level * s.face_count + face) image_info }

/-- Embeds `WebGLTexture::set_image_infos_at_level` (lines 387-391): write the same
info to every face at `level`. -/
def set_image_infos_at_level (s : WebGLTextureState) (level : Nat)
    (image_info : ImageInfo) : WebGLTextureState :=
  (List.range s.face_count).foldl
    (fun acc face => acc.set_image_infos_at_level_and_face level face image_info) s

/-- Embeds `WebGLTexture::base_image_info` (lines 399-403). -/
def base_image_info (s : WebGLTextureState) : ImageInfo :=
  s.image_info_at_face 0 s.base_mipmap_level

/-- Embeds `WebGLTexture::face_index_for_target` (lines 365-375). -/
def face_index_for_target : TexImageTarget → Nat
  | .Texture2D => 0
  | .CubeMapPositiveX => 0
  | .CubeMapNegativeX => 1
  | .CubeMapPositiveY => 2
  | .CubeMapNegativeY => 3
  | .CubeMapPositiveZ => 4
  | .CubeMapNegativeZ => 5

/-- Embeds `WebGLTexture::bind` (lines 93-118).  Returns the result, the updated
state, and the emitted events. -/
def bind (s : WebGLTextureState) (target : Nat) :
    Except WebGLError Unit × WebGLTextureState × List TexEvent :=
  if s.is_deleted then
    (.error .InvalidOperation, s, [])
  else
    match s.target with
    | some previous_target =>
      if target ≠ previous_target then
        (.error .InvalidOperation, s, [])
      else
        (.ok (), s, [.cmd (.BindTexture target (some s.id))])
    | none =>
      -- This is the first time binding
      if target = constants.TEXTURE_2D then
        let s := { s with face_count := 1, target := some target }
        (.ok (), s, [.cmd (.BindTexture target (some s.id))])
      else if target = constants.TEXTURE_CUBE_MAP then
        let s := { s with face_count := 6, target := some target }
        (.ok (), s, [.cmd (.BindTexture target (some s.id))])
      else
        (.error .InvalidEnum, s, [])

/-- Embeds `WebGLTexture::initialize` (lines 120-142); the source name is a
Lean keyword, hence the suffix. -/
def initialize_image (s : WebGLTextureState) (target : TexImageTarget) (width : Nat)
    (height : Nat) (depth : Nat) (internal_format : TexFormat) (level : Nat)
    (data_type : Option TexDataType) :
    Except WebGLError Unit × WebGLTextureState :=
  let image_info : ImageInfo :=
    { width := width
      height := height
      depth := depth
      internal_format := some internal_format
      is_initialized := true
      data_type := data_type }
  let face_index := face_index_for_target target
  (.ok (), s.set_image_infos_at_level_and_face level face_index image_info)

/-- Embeds `WebGLTexture::is_cube_complete` (lines 336-363).  (The source's
`debug_assert_eq!(face_count, 6)` is a debug-only programmer check, not a
behavior.) -/
def is_cube_complete (s : WebGLTextureState) : Bool :=
  let image_info := s.base_image_info
  if ¬ image_info.is_defined then
    false
  else
    let ref_width := image_info.width
    let ref_format := image_info.internal_format
    (List.range s.face_count).all fun face =>
      let current_image_info := s.image_info_at_face face s.base_mipmap_level
      -- Compares height with width to enforce square dimensions
      current_image_info.is_defined &&
        decide (current_image_info.internal_format = ref_format) &&
        current_image_info.width == ref_width &&
        current_image_info.height == ref_width

/-- Embeds the loop body sequence of `populate_mip_chain` (lines 314-332):
walk the given levels carrying the running reference dimensions, stopping
early once both reach 1. -/
def populate_levels (base_image_info : ImageInfo) (s : WebGLTextureState)
    (ref_width : Nat) (ref_height : Nat) : List Nat → WebGLTextureState
  | [] => s
  | level :: rest =>
    if ref_width = 1 ∧ ref_height = 1 then
      s
    else
      let new_width := max 1 (ref_width / 2)
      let new_height := max 1 (ref_height / 2)
      let image_info : ImageInfo :=
        { width := new_width
          height := new_height
          depth := 0
          internal_format := base_image_info.internal_format
          is_initialized := base_image_info.is_initialized
          data_type := base_image_info.data_type }
      populate_levels base_image_info (s.set_image_infos_at_level level image_info)
        new_width new_height rest

/-- Embeds `WebGLTexture::populate_mip_chain` (lines 301-334).  The Rust
`for level in (first_level + 1)..last_level` iterates the half-open range,
embedded as `List.range' (first_level + 1) (last_level - (first_level + 1))`
(empty when `last_level ≤ first_level + 1`, as in Rust). -/
def populate_mip_chain (s : WebGLTextureState) (first_level : Nat) (last_level : Nat) :
    Except WebGLError Unit × WebGLTextureState :=
  let base_image_info := s.image_info_at_face 0 first_level
  if ¬ base_image_info.is_initialized then
    (.error .InvalidOperation, s)
  else if base_image_info.width = 0 ∨ base_image_info.height = 0 then
    (.error .InvalidOperation, s)
  else
    (.ok (),
      populate_levels base_image_info s base_image_info.width base_image_info.height
        (List.range' (first_level + 1) (last_level - (first_level + 1))))

/-- Embeds `WebGLTexture::generate_mipmap` (lines 144-181). -/
def generate_mipmap (s : WebGLTextureState) :
    Except WebGLError Unit × WebGLTextureState × List TexEvent :=
  match s.target with
  | none => (.error .InvalidOperation, s, [])
  | some target =>
    let base_image_info := s.base_image_info
    if ¬ base_image_info.is_initialized then
      (.error .InvalidOperation, s, [])
    else if (target = constants.TEXTURE_CUBE_MAP) ∧ ¬ s.is_cube_complete then
      (.error .InvalidOperation, s, [])
    else if ¬ base_image_info.is_power_of_two then
      (.error .InvalidOperation, s, [])
    else if base_image_info.is_compressed_format then
      (.error .InvalidOperation, s, [])
    else
      let events := [TexEvent.cmd (.GenerateMipmap target)]
      if s.base_mipmap_level + base_image_info.get_max_mimap_levels = 0 then
        (.error .InvalidOperation, s, events)
      else
        let last_level := s.base_mipmap_level + base_image_info.get_max_mimap_levels - 1
        let out := s.populate_mip_chain s.base_mipmap_level last_level
        (out.1, out.2, events)

/-- Embeds `WebGLTexture::delete` (lines 183-214).  The collaborators it
consults are passed in: `fb_bound` is whether `context.bound_framebuffer()`
returns a framebuffer (in which case its `detach_texture` hook is invoked,
recorded as an `fbDetach` event).  The `fallible` flag only selects
`send_command_ignored` over `send_command` — the same command is placed on
the channel either way, so the trace does not distinguish them. -/
def delete (s : WebGLTextureState) (fallible : Bool) (fb_bound : Bool) :
    WebGLTextureState × List TexEvent :=
  if ¬ s.is_deleted then
    let s := { s with is_deleted := true }
    let dom_events := if s.attached_to_dom then [TexEvent.domDetach s.id] else []
    let fb_events := if fb_bound then [TexEvent.fbDetach s.id] else []
    let _ := fallible
    (s, dom_events ++ fb_events ++ [TexEvent.cmd (.DeleteTexture s.id)])
  else
    (s, [])

/-- Runs a sequence of `delete` calls; each list entry gives that call's
`fallible` flag and whether a framebuffer is bound at that moment.  A
`Drop`-time `delete(true)` (lines 410-414) is simply a final entry with
`fallible = true`. -/
def run_deletes (s : WebGLTextureState) : List (Bool × Bool) → WebGLTextureState × List TexEvent
  | [] => (s, [])
  | call :: rest =>
    let out1 := s.delete call.1 call.2
    let out2 := run_deletes out1.1 rest
    (out2.1, out1.2 ++ out2.2)

/-- Embeds the `i32 as u32` reinterpretation (two's complement) used where
the source matches `int_value as u32` against constants. -/
def u32_of_i32 (i : Int) : Nat := (i % ((2 : Int) ^ 32)).toNat

/-- Embeds the Rust `f32 as i32` saturating cast used to form `int_value`
from a float-tagged parameter value: NaN maps to 0, values are truncated
toward zero and clamped to the `i32` range. -/
def f32_as_i32 : F32 → Int
  | .nan => 0
  | .inf => 2 ^ 31 - 1
  | .neginf => -(2 ^ 31)
  | .finite q =>
    let t : Int := if 0 ≤ q then ⌊q⌋ else ⌈q⌉
    max (-(2 ^ 31)) (min (2 ^ 31 - 1) t)

/-- Embeds the Rust `i32 as f32` cast used to form `float_value` from an
int-tagged parameter value.  The real cast rounds to the nearest `f32`;
rounding an integer preserves its sign and its order relative to 1, and the
only observation this module makes of `float_value` is the `>= 1.0` test,
so the exact rational image is a faithful embedding here. -/
def i32_as_f32 (i : Int) : F32 := .finite (i : ℚ)

/-- Selects which filter cell (`min_filter` or `mag_filter`) the
`update_filter` closure captured. -/
inductive FilterCell where
  | minFilterCell
  | magFilterCell
  deriving DecidableEq

def filter_get (s : WebGLTextureState) : FilterCell → Nat
  | .minFilterCell => s.min_filter
  | .magFilterCell => s.mag_filter

def filter_set (s : WebGLTextureState) : FilterCell → Nat → WebGLTextureState
  | .minFilterCell, v => { s with min_filter := v }
  | .magFilterCell, v => { s with mag_filter := v }

/-- Embeds the `update_filter` closure inside `tex_parameter` (lines
235-244): no-op when the stored filter already equals `int_value as u32`,
otherwise store it and emit one `TexParameteri` command. -/
def update_filter (s : WebGLTextureState) (target : Nat) (param : Nat)
    (int_value : Int) (cell : FilterCell) :
    Except WebGLError Unit × WebGLTextureState × List TexEvent :=
  if filter_get s cell = u32_of_i32 int_value then
    (.ok (), s, [])
  else
    (.ok (), filter_set s cell (u32_of_i32 int_value),
      [.cmd (.TexParameteri target param int_value)])

/-- Embeds `WebGLTexture::tex_parameter` (lines 227-280).  The source begins
with `self.target().unwrap()` — a panic when the texture is unbound, which
no legitimate caller reaches — embedded as the `none` result. -/
def tex_parameter (s : WebGLTextureState) (param : Nat) (value : TexParameterValue) :
    Option (Except WebGLError Unit × WebGLTextureState × List TexEvent) :=
  match s.target with
  | none => none
  | some target =>
    let int_value : Int :=
      match value with
      | .Int i => i
      | .Float f => f32_as_i32 f
    let float_value : F32 :=
      match value with
      | .Int i => i32_as_f32 i
      | .Float f => f
    if param = constants.TEXTURE_MIN_FILTER then
      let v := u32_of_i32 int_value
      if v = constants.NEAREST ∨ v = constants.LINEAR ∨
          v = constants.NEAREST_MIPMAP_NEAREST ∨ v = constants.LINEAR_MIPMAP_NEAREST ∨
          v = constants.NEAREST_MIPMAP_LINEAR ∨ v = constants.LINEAR_MIPMAP_LINEAR then
        some (update_filter s target param int_value .minFilterCell)
      else
        some (.error .InvalidEnum, s, [])
    else if param = constants.TEXTURE_MAG_FILTER then
      let v := u32_of_i32 int_value
      if v = constants.NEAREST ∨ v = constants.LINEAR then
        some (update_filter s target param int_value .magFilterCell)
      else
        some (.error .InvalidEnum, s, [])
    else if param = constants.TEXTURE_WRAP_S ∨ param = constants.TEXTURE_WRAP_T then
      let v := u32_of_i32 int_value
      if v = constants.CLAMP_TO_EDGE ∨ v = constants.MIRRORED_REPEAT ∨ v = constants.REPEAT then
        some (.ok (), s, [.cmd (.TexParameteri target param int_value)])
      else
        some (.error .InvalidEnum, s, [])
    else if param = constants.TEXTURE_MAX_ANISOTROPY_EXT then
      -- NaN is not less than 1., what a time to be alive.
      if ¬ float_value.ge1 then
        some (.error .InvalidValue, s, [])
      else
        some (.ok (), s, [.cmd (.TexParameterf target param float_value)])
    else
      some (.error .InvalidEnum, s, [])

/-- Embeds `WebGLTexture::min_filter` (lines 282-284). -/
def min_filter_get (s : WebGLTextureState) : Nat := s.min_filter

/-- Embeds `WebGLTexture::mag_filter` (lines 286-288). -/
def mag_filter_get (s : WebGLTextureState) : Nat := s.mag_filter

end WebGLTextureState

/-- Observation helper: the mip levels (below the table capacity) whose
face-0 entry is marked initialized. -/
def initializedLevels (s : WebGLTextureState) : List Nat :=
  (List.range MAX_LEVEL_COUNT).filter fun level =>
    (s.image_info_at_face 0 level).is_initialized

/-- Observation helper: how many `DeleteTexture` commands a trace holds. -/
def countDeleteCmds (events : List TexEvent) : Nat :=
  events.countP fun e =>
    match e with
    | .cmd (.DeleteTexture _) => true
    | _ => false

/-- Observation helper: how many DOMToTexture detach notifications a trace
holds. -/
def countDomDetach (events : List TexEvent) : Nat :=
  events.countP fun e =>
    match e with
    | .domDetach _ => true
    | _ => false

/-- The six legal min-filter enumerators (the arms of the
`TEXTURE_MIN_FILTER` match, lines 246-253). -/
def minFilterValues : List Nat :=
  [constants.NEAREST, constants.LINEAR,
   constants.NEAREST_MIPMAP_NEAREST, constants.LINEAR_MIPMAP_NEAREST,
   constants.NEAREST_MIPMAP_LINEAR, constants.LINEAR_MIPMAP_LINEAR]

/-- The two texture targets `bind` accepts (lines 104-108). -/
def validBindTarget (target : Nat) : Prop :=
  target = constants.TEXTURE_2D ∨ target = constants.TEXTURE_CUBE_MAP

instance (target : Nat) : Decidable (validBindTarget target) := by
  unfold validBindTarget
  infer_instance

/-- The 16 × 16 base-level `ImageInfo` of the mip-chain scenario: depth and
format code and data type arbitrary, format uncompressed. -/
def c1Base (code depth : Nat) (dt : Option TexDataType) : ImageInfo :=
  { width := 16, height := 16, depth := depth, internal_format := some ⟨code, false⟩,
    is_initialized := true, data_type := dt }

/-- The mip-chain scenario: a fresh texture bound to `TEXTURE_2D`, base
level (level 0, face 0) initialized as 16 × 16 with the given depth. -/
def c1State (id code depth : Nat) (dt : Option TexDataType) : WebGLTextureState :=
  ((WebGLTextureState.new_inherited id).bind constants.TEXTURE_2D).2.1.initialize_image
    .Texture2D 16 16 depth ⟨code, false⟩ 0 dt |>.2

/-- The scenario state written out field by field (equal to `c1State` by
computation). -/
def c1Explicit (id code depth : Nat) (dt : Option TexDataType) : WebGLTextureState :=
  { id := id, target := some constants.TEXTURE_2D, is_deleted := false,
    image_info_array := (List.replicate (MAX_LEVEL_COUNT * MAX_FACE_COUNT) ImageInfo.new).set 0
      (c1Base code depth dt),
    face_count := 1, base_mipmap_level := 0,
    min_filter := constants.NEAREST_MIPMAP_LINEAR, mag_filter := constants.LINEAR,
    attached_to_dom := false }

/-- A derived mip level of the scenario: square side `w`, depth zeroed,
format and data type copied from the base. -/
def c1Derived (code : Nat) (dt : Option TexDataType) (w : Nat) : ImageInfo :=
  { width := w, height := w, depth := 0, internal_format := some ⟨code, false⟩,
    is_initialized := true, data_type := dt }

/-- The scenario table after level 1 has been derived. -/
def c1ArrayA (code depth : Nat) (dt : Option TexDataType) : List ImageInfo :=
  ((List.replicate (MAX_LEVEL_COUNT * MAX_FACE_COUNT) ImageInfo.new).set 0
    (c1Base code depth dt)).set 1 (c1Derived code dt 8)

/-- The scenario state after level 1 has been derived. -/
def c1StateA (id code depth : Nat) (dt : Option TexDataType) : WebGLTextureState :=
  { c1Explicit id code depth dt with image_info_array := c1ArrayA code depth dt }

/-- The scenario table after levels 1 and 2 have been derived. -/
def c1ArrayB (code depth : Nat) (dt : Option TexDataType) : List ImageInfo :=
  (c1ArrayA code depth dt).set 2 (c1Derived code dt 4)

/-- The scenario state after levels 1 and 2 have been derived. -/
def c1StateB (id code depth : Nat) (dt : Option TexDataType) : WebGLTextureState :=
  { c1Explicit id code depth dt with image_info_array := c1ArrayB code depth dt }

/-- The scenario table after mip-chain population: levels 1, 2, 3 derived
(8 × 8, 4 × 4, 2 × 2); the 1 × 1 level is never written because population
stops before `last_level`. -/
def c1FinalArray (code depth : Nat) (dt : Option TexDataType) : List ImageInfo :=
  (c1ArrayB code depth dt).set 3 (c1Derived code dt 2)

/-- The scenario state after `generate_mipmap`. -/
def c1Final (id code depth : Nat) (dt : Option TexDataType) : WebGLTextureState :=
  { c1Explicit id code depth dt with image_info_array := c1FinalArray code depth dt }

end WebGLTex

open WebGLTex

/-- A deleted texture's `delete` is a no-op: the guard at line 184 fails. -/
theorem delete_of_deleted (s : WebGLTextureState) (fallible fb_bound : Bool)
    (h : s.is_deleted = true) : s.delete fallible fb_bound = (s, []) := by
  simp [WebGLTextureState.delete, h]

/-- Any sequence of `delete` calls on an already-deleted texture changes
nothing and emits nothing. -/
theorem run_deletes_of_deleted (s : WebGLTextureState) (calls : List (Bool × Bool))
    (h : s.is_deleted = true) : WebGLTextureState.run_deletes s calls = (s, []) := by
  induction calls with
  | nil => rfl
  | cons c rest ih =>
    simp [WebGLTextureState.run_deletes, delete_of_deleted s c.1 c.2 h, ih]

/-- The first effective `delete` sets the flag and emits the detach events
followed by the delete command. -/
theorem delete_first (s : WebGLTextureState) (fallible fb_bound : Bool)
    (h : s.is_deleted = false) :
    s.delete fallible fb_bound =
      ({ s with is_deleted := true },
        (if s.attached_to_dom then [TexEvent.domDetach s.id] else []) ++
          (if fb_bound then [TexEvent.fbDetach s.id] else []) ++
          [TexEvent.cmd (.DeleteTexture s.id)]) := by
  simp [WebGLTextureState.delete, h]

/-- C10: a freshly constructed texture has min filter `NEAREST_MIPMAP_LINEAR`
and mag filter `LINEAR` (the GLES defaults), no target, is not deleted, has
face count 0, and every (level, face) slot of its image-info table is the
default uninitialized `ImageInfo` with zero dimensions and unset format and
data type. -/
theorem fresh_texture_defaults (id : Nat) :
    WebGLTextureState.min_filter_get (WebGLTextureState.new_inherited id) =
      constants.NEAREST_MIPMAP_LINEAR ∧
    WebGLTextureState.mag_filter_get (WebGLTextureState.new_inherited id) =
      constants.LINEAR ∧
    (WebGLTextureState.new_inherited id).target = none ∧
    (WebGLTextureState.new_inherited id).is_deleted = false ∧
    (WebGLTextureState.new_inherited id).face_count = 0 ∧
    (∀ level face : Nat,
      (WebGLTextureState.new_inherited id).image_info_at_face face level = ImageInfo.new) ∧
    ImageInfo.new =
      { width := 0, height := 0, depth := 0, internal_format := none,
        is_initialized := false, data_type := none } := by
  refine ⟨rfl, rfl, rfl, rfl, rfl, ?_, rfl⟩
  intro level face
  show (List.replicate (MAX_LEVEL_COUNT * MAX_FACE_COUNT) ImageInfo.new).getD
    (level * 0 + face) ImageInfo.new = ImageInfo.new
  rw [List.getD_eq_getElem?_getD]
  exact List.getElem?_getD_replicate_default_eq _ _ _

/-- C7: binding an unbound, non-deleted texture to a target other than
`TEXTURE_2D` or `TEXTURE_CUBE_MAP` fails with `InvalidEnum` and mutates
nothing and emits nothing; binding a deleted texture fails with
`InvalidOperation` regardless of the target; a successful first bind sets
`face_count` to 1 (2D) or 6 (cube map) together with `target` in the same
transition. -/
theorem bind_first_transition (s : WebGLTextureState) (target : Nat) :
    (s.is_deleted = false → s.target = none → ¬ validBindTarget target →
      s.bind target = (.error .InvalidEnum, s, [])) ∧
    (s.is_deleted = true → s.bind target = (.error .InvalidOperation, s, [])) ∧
    (s.is_deleted = false → s.target = none → target = constants.TEXTURE_2D →
      s.bind target = (.ok (), { s with face_count := 1, target := some target },
        [.cmd (.BindTexture target (some s.id))])) ∧
    (s.is_deleted = false → s.target = none → target = constants.TEXTURE_CUBE_MAP →
      s.bind target = (.ok (), { s with face_count := 6, target := some target },
        [.cmd (.BindTexture target (some s.id))])) := by
  refine ⟨?_, ?_, ?_, ?_⟩
  · intro hdel htarget hbad
    rw [validBindTarget, not_or] at hbad
    simp [WebGLTextureState.bind, hdel, htarget, hbad.1, hbad.2]
  · intro hdel
    simp [WebGLTextureState.bind, hdel]
  · intro hdel htarget h2d
    simp [WebGLTextureState.bind, hdel, htarget, h2d]
  · intro hdel htarget hcube
    have hne : ¬ (constants.TEXTURE_CUBE_MAP = constants.TEXTURE_2D) := by decide
    simp [WebGLTextureState.bind, hdel, htarget, hcube, hne]

/-- C7 witness: the three behaviors at concrete inputs. -/
theorem bind_first_transition_witness :
    ((WebGLTextureState.new_inherited 3).bind 5 =
      (.error .InvalidEnum, WebGLTextureState.new_inherited 3, [])) ∧
    ({ WebGLTextureState.new_inherited 3 with is_deleted := true }.bind
        constants.TEXTURE_2D =
      (.error .InvalidOperation,
        { WebGLTextureState.new_inherited 3 with is_deleted := true }, [])) ∧
    ((WebGLTextureState.new_inherited 3).bind constants.TEXTURE_2D =
      (.ok (), { WebGLTextureState.new_inherited 3 with
        face_count := 1, target := some constants.TEXTURE_2D },
        [.cmd (.BindTexture constants.TEXTURE_2D (some 3))])) ∧
    ((WebGLTextureState.new_inherited 4).bind constants.TEXTURE_CUBE_MAP =
      (.ok (), { WebGLTextureState.new_inherited 4 with
        face_count := 6, target := some constants.TEXTURE_CUBE_MAP },
        [.cmd (.BindTexture constants.TEXTURE_CUBE_MAP (some 4))])) :=
  ⟨(bind_first_transition (WebGLTextureState.new_inherited 3) 5).1 rfl rfl (by decide),
   (bind_first_transition { WebGLTextureState.new_inherited 3 with is_deleted := true }
      constants.TEXTURE_2D).2.1 rfl,
   (bind_first_transition (WebGLTextureState.new_inherited 3)
      constants.TEXTURE_2D).2.2.1 rfl rfl rfl,
   (bind_first_transition (WebGLTextureState.new_inherited 4)
      constants.TEXTURE_CUBE_MAP).2.2.2 rfl rfl rfl⟩

/-- C6 counterexample: the claim quantifies over every non-deleted texture,
but for a texture already bound to `t2` (here: cube map), `bind(t1)` with
`t1 = TEXTURE_2D` fails while the following `bind(t2)` succeeds — so the
claimed `InvalidOperation` failure of the second call, and the claimed
success of `bind(t1)` twice, are both false at this input. -/
theorem bind_rebind_counterexample :
    ((WebGLTextureState.new_inherited 3).bind constants.TEXTURE_CUBE_MAP).2.1.is_deleted
        = false ∧
    validBindTarget constants.TEXTURE_2D ∧
    validBindTarget constants.TEXTURE_CUBE_MAP ∧
    constants.TEXTURE_2D ≠ constants.TEXTURE_CUBE_MAP ∧
    (let s0 := ((WebGLTextureState.new_inherited 3).bind constants.TEXTURE_CUBE_MAP).2.1
     ((s0.bind constants.TEXTURE_2D).2.1.bind constants.TEXTURE_CUBE_MAP).1 = .ok ()) ∧
    (let s0 := ((WebGLTextureState.new_inherited 3).bind constants.TEXTURE_CUBE_MAP).2.1
     (s0.bind constants.TEXTURE_2D).1 = .error .InvalidOperation) :=
  ⟨rfl, by decide, by decide, by decide, rfl, rfl⟩

/-- C6 (amended): for every non-deleted, **unbound** texture and valid
targets `t1 ≠ t2`: `bind(t1)` succeeds; the following `bind(t2)` fails with
`InvalidOperation` and leaves the state (in particular `target` and
`face_count`) exactly as `bind(t1)` left it, emitting nothing; and
`bind(t1)` again succeeds, leaving the state unchanged. -/
theorem bind_rebind (s : WebGLTextureState) (t1 t2 : Nat)
    (hdel : s.is_deleted = false) (hunbound : s.target = none)
    (h1 : validBindTarget t1) (_h2 : validBindTarget t2) (hne : t1 ≠ t2) :
    (s.bind t1).1 = .ok () ∧
    (s.bind t1).2.1.target = some t1 ∧
    ((s.bind t1).2.1.bind t2) = (.error .InvalidOperation, (s.bind t1).2.1, []) ∧
    ((s.bind t1).2.1.bind t1) =
      (.ok (), (s.bind t1).2.1, [.cmd (.BindTexture t1 (some s.id))]) := by
  have hd2 : ¬ (constants.TEXTURE_CUBE_MAP = constants.TEXTURE_2D) := by decide
  cases h1 with
  | inl h2d =>
    subst h2d
    have hbind : s.bind constants.TEXTURE_2D =
        (.ok (), { s with face_count := 1, target := some constants.TEXTURE_2D },
          [.cmd (.BindTexture constants.TEXTURE_2D (some s.id))]) := by
      simp [WebGLTextureState.bind, hdel, hunbound]
    refine ⟨by rw [hbind], by rw [hbind], ?_, ?_⟩
    · rw [hbind]
      simp [WebGLTextureState.bind, hdel]
      intro heq
      exact absurd heq.symm hne
    · rw [hbind]
      simp [WebGLTextureState.bind, hdel]
  | inr hcm =>
    subst hcm
    have hbind : s.bind constants.TEXTURE_CUBE_MAP =
        (.ok (), { s with face_count := 6, target := some constants.TEXTURE_CUBE_MAP },
          [.cmd (.BindTexture constants.TEXTURE_CUBE_MAP (some s.id))]) := by
      simp [WebGLTextureState.bind, hdel, hunbound, hd2]
    refine ⟨by rw [hbind], by rw [hbind], ?_, ?_⟩
    · rw [hbind]
      simp [WebGLTextureState.bind, hdel]
      intro heq
      exact absurd heq.symm hne
    · rw [hbind]
      simp [WebGLTextureState.bind, hdel]

/-- C6 witness: the amended statement at a fresh texture with `t1 = 2D`,
`t2 = cube map`. -/
theorem bind_rebind_witness :
    ((WebGLTextureState.new_inherited 7).bind constants.TEXTURE_2D).1 = .ok () ∧
    ((WebGLTextureState.new_inherited 7).bind constants.TEXTURE_2D).2.1.target =
      some constants.TEXTURE_2D ∧
    (((WebGLTextureState.new_inherited 7).bind constants.TEXTURE_2D).2.1.bind
        constants.TEXTURE_CUBE_MAP) =
      (.error .InvalidOperation,
        ((WebGLTextureState.new_inherited 7).bind constants.TEXTURE_2D).2.1, []) ∧
    (((WebGLTextureState.new_inherited 7).bind constants.TEXTURE_2D).2.1.bind
        constants.TEXTURE_2D) =
      (.ok (), ((WebGLTextureState.new_inherited 7).bind constants.TEXTURE_2D).2.1,
        [.cmd (.BindTexture constants.TEXTURE_2D (some 7))]) :=
  bind_rebind (WebGLTextureState.new_inherited 7) constants.TEXTURE_2D
    constants.TEXTURE_CUBE_MAP rfl rfl (by decide) (by decide) (by decide)

/-- C5: on the first effective delete with a framebuffer currently bound,
the framebuffer's `detach_texture` hook fires strictly before the
`DeleteTexture` command enters the trace, so the executor can never observe
the delete ahead of the detach. -/
theorem delete_detach_ordering (s : WebGLTextureState) (fallible : Bool)
    (h : s.is_deleted = false) :
    ∃ pre post,
      (s.delete fallible true).2 = pre ++ TexEvent.fbDetach s.id :: post ∧
      TexEvent.cmd (.DeleteTexture s.id) ∈ post ∧
      TexEvent.cmd (.DeleteTexture s.id) ∉ pre := by
  rw [delete_first s fallible true h]
  cases hdom : s.attached_to_dom with
  | false =>
    refine ⟨[], [TexEvent.cmd (.DeleteTexture s.id)], by simp, by simp, by simp⟩
  | true =>
    refine ⟨[TexEvent.domDetach s.id], [TexEvent.cmd (.DeleteTexture s.id)],
      by simp, by simp, by simp⟩

/-- C5 witness: the ordering at a concrete texture attached to the DOM. -/
theorem delete_detach_ordering_witness :
    ∃ pre post,
      ({ WebGLTextureState.new_inherited 9 with attached_to_dom := true }.delete
          false true).2 = pre ++ TexEvent.fbDetach 9 :: post ∧
      TexEvent.cmd (.DeleteTexture 9) ∈ post ∧
      TexEvent.cmd (.DeleteTexture 9) ∉ pre :=
  delete_detach_ordering
    { WebGLTextureState.new_inherited 9 with attached_to_dom := true } false rfl

/-- C4: delete is idempotent and exactly-once.  For any nonempty sequence of
`delete` calls starting from a non-deleted texture: the whole run equals the
first call alone (later calls change no state and emit nothing), exactly one
`DeleteTexture` command is emitted, at most one DOMToTexture detach is sent
(exactly one iff `attached_to_dom` was set at the first call), and the
deleted flag holds from the first call onward. -/
theorem delete_exactly_once (s : WebGLTextureState) (first : Bool × Bool)
    (rest : List (Bool × Bool)) (h : s.is_deleted = false) :
    WebGLTextureState.run_deletes s (first :: rest) = s.delete first.1 first.2 ∧
    countDeleteCmds (WebGLTextureState.run_deletes s (first :: rest)).2 = 1 ∧
    countDomDetach (WebGLTextureState.run_deletes s (first :: rest)).2 ≤ 1 ∧
    (countDomDetach (WebGLTextureState.run_deletes s (first :: rest)).2 = 1 ↔
      s.attached_to_dom = true) ∧
    (s.delete first.1 first.2).1.is_deleted = true ∧
    (∀ calls2 : List (Bool × Bool),
      WebGLTextureState.run_deletes (s.delete first.1 first.2).1 calls2 =
        ((s.delete first.1 first.2).1, [])) := by
  have hfirst := delete_first s first.1 first.2 h
  have hflag : (s.delete first.1 first.2).1.is_deleted = true := by rw [hfirst]
  have hrest : ∀ calls2 : List (Bool × Bool),
      WebGLTextureState.run_deletes (s.delete first.1 first.2).1 calls2 =
        ((s.delete first.1 first.2).1, []) :=
    fun calls2 => run_deletes_of_deleted _ calls2 hflag
  have hrun : WebGLTextureState.run_deletes s (first :: rest) = s.delete first.1 first.2 := by
    simp only [WebGLTextureState.run_deletes, hrest rest, List.append_nil]
  refine ⟨hrun, ?_, ?_, ?_, hflag, hrest⟩ <;>
    rw [hrun, hfirst] <;>
    cases hdom : s.attached_to_dom <;>
    cases hfb : first.2 <;>
    simp [countDeleteCmds, countDomDetach]

/-- C4 witness: two deletes (an explicit `delete(false)` with a framebuffer
bound, then the drop-time `delete(true)`) on a DOM-attached texture. -/
theorem delete_exactly_once_witness :
    WebGLTextureState.run_deletes
        { WebGLTextureState.new_inherited 5 with attached_to_dom := true }
        [(false, true), (true, false)] =
      { WebGLTextureState.new_inherited 5 with attached_to_dom := true }.delete
        false true ∧
    countDeleteCmds (WebGLTextureState.run_deletes
        { WebGLTextureState.new_inherited 5 with attached_to_dom := true }
        [(false, true), (true, false)]).2 = 1 ∧
    countDomDetach (WebGLTextureState.run_deletes
        { WebGLTextureState.new_inherited 5 with attached_to_dom := true }
        [(false, true), (true, false)]).2 ≤ 1 ∧
    (countDomDetach (WebGLTextureState.run_deletes
        { WebGLTextureState.new_inherited 5 with attached_to_dom := true }
        [(false, true), (true, false)]).2 = 1 ↔
      ({ WebGLTextureState.new_inherited 5 with
          attached_to_dom := true } : WebGLTextureState).attached_to_dom = true) ∧
    ({ WebGLTextureState.new_inherited 5 with attached_to_dom := true }.delete
        false true).1.is_deleted = true ∧
    (∀ calls2 : List (Bool × Bool),
      WebGLTextureState.run_deletes
        ({ WebGLTextureState.new_inherited 5 with attached_to_dom := true }.delete
          false true).1 calls2 =
        (({ WebGLTextureState.new_inherited 5 with attached_to_dom := true }.delete
          false true).1, [])) :=
  delete_exactly_once
    { WebGLTextureState.new_inherited 5 with attached_to_dom := true }
    (false, true) [(true, false)] rfl

/-- C1 counterexample: with depth 1 (a power of two) the successful
`generate_mipmap()` on a 16 × 16 2D base leaves only levels 0-3 initialized
— the 1 × 1 level (level 4) is never written, so the table does not hold 5
initialized levels. -/
theorem mip_chain_16_counterexample :
    ImageInfo.natIsPowerOfTwo 1 = true ∧
    (c1State 1 0 1 none).generate_mipmap.1 = .ok () ∧
    initializedLevels (c1State 1 0 1 none).generate_mipmap.2.1 = [0, 1, 2, 3] ∧
    ((c1State 1 0 1 none).generate_mipmap.2.1.image_info_at_face 0 4).is_initialized
      = false :=
  ⟨rfl, rfl, rfl, rfl⟩

/-- C1 (amended): for a 16 × 16 2D base with power-of-two depth at most 16,
a successful `generate_mipmap()` emits one `GenerateMipmap` command and
leaves exactly 4 initialized mip levels, 0-3, with dimensions 16 × 16,
8 × 8, 4 × 4, 2 × 2 (each subsequent level `max(1, prev / 2)` in both
dimensions); the 1 × 1 level is not written because population excludes
`last_level`. -/
theorem mip_chain_16_levels (id code depth : Nat) (dt : Option TexDataType)
    (hpow : ImageInfo.natIsPowerOfTwo depth = true) (hle : depth ≤ 16) :
    (c1State id code depth dt).generate_mipmap.1 = .ok () ∧
    (c1State id code depth dt).generate_mipmap.2.2 =
      [TexEvent.cmd (.GenerateMipmap constants.TEXTURE_2D)] ∧
    initializedLevels (c1State id code depth dt).generate_mipmap.2.1 = [0, 1, 2, 3] ∧
    (c1State id code depth dt).generate_mipmap.2.1.image_info_at_face 0 0 =
      c1Base code depth dt ∧
    (c1State id code depth dt).generate_mipmap.2.1.image_info_at_face 0 1 =
      c1Derived code dt 8 ∧
    (c1State id code depth dt).generate_mipmap.2.1.image_info_at_face 0 2 =
      c1Derived code dt 4 ∧
    (c1State id code depth dt).generate_mipmap.2.1.image_info_at_face 0 3 =
      c1Derived code dt 2 := by
  have hstate : c1State id code depth dt = c1Explicit id code depth dt := rfl
  have hpow2 : (c1Base code depth dt).is_power_of_two = true := by
    simp [c1Base, ImageInfo.is_power_of_two, hpow]
    decide
  have hmax : (c1Base code depth dt).get_max_mimap_levels = 5 := by
    unfold ImageInfo.get_max_mimap_levels c1Base
    simp only []
    rw [show max (16 : Nat) 16 = 16 from rfl, max_eq_left hle]
    rfl
  have hbase : (c1Explicit id code depth dt).base_image_info = c1Base code depth dt := rfl
  have h1 : WebGLTextureState.populate_levels (c1Base code depth dt)
        (c1Explicit id code depth dt) 16 16 [1, 2, 3]
      = WebGLTextureState.populate_levels (c1Base code depth dt)
        (c1StateA id code depth dt) 8 8 [2, 3] := rfl
  have h2 : WebGLTextureState.populate_levels (c1Base code depth dt)
        (c1StateA id code depth dt) 8 8 [2, 3]
      = WebGLTextureState.populate_levels (c1Base code depth dt)
        (c1StateB id code depth dt) 4 4 [3] := rfl
  have h3 : WebGLTextureState.populate_levels (c1Base code depth dt)
        (c1StateB id code depth dt) 4 4 [3]
      = c1Final id code depth dt := rfl
  have hpop : (c1Explicit id code depth dt).populate_mip_chain 0 4
      = (.ok (), c1Final id code depth dt) :=
    calc (c1Explicit id code depth dt).populate_mip_chain 0 4
        = (.ok (), WebGLTextureState.populate_levels (c1Base code depth dt)
            (c1Explicit id code depth dt) 16 16 [1, 2, 3]) := rfl
      _ = (.ok (), c1Final id code depth dt) := by rw [h1, h2, h3]
  have hgen : (c1Explicit id code depth dt).generate_mipmap
      = (.ok (), c1Final id code depth dt,
          [TexEvent.cmd (.GenerateMipmap constants.TEXTURE_2D)]) := by
    unfold WebGLTextureState.generate_mipmap
    rw [hbase]
    simp only [show (c1Explicit id code depth dt).target = some constants.TEXTURE_2D from rfl,
      show (c1Base code depth dt).is_initialized = true from rfl,
      show (c1Base code depth dt).is_compressed_format = false from rfl,
      show (c1Explicit id code depth dt).base_mipmap_level = 0 from rfl,
      show ¬ (constants.TEXTURE_2D = constants.TEXTURE_CUBE_MAP) from by decide,
      hpow2, hmax, hpop]
    rfl
  rw [hstate, hgen]
  exact ⟨rfl, rfl, rfl, rfl, rfl, rfl, rfl⟩

/-- C1 witness: the amended statement at depth 16 with format code 2. -/
theorem mip_chain_16_levels_witness :
    (c1State 4 2 16 none).generate_mipmap.1 = .ok () ∧
    (c1State 4 2 16 none).generate_mipmap.2.2 =
      [TexEvent.cmd (.GenerateMipmap constants.TEXTURE_2D)] ∧
    initializedLevels (c1State 4 2 16 none).generate_mipmap.2.1 = [0, 1, 2, 3] ∧
    (c1State 4 2 16 none).generate_mipmap.2.1.image_info_at_face 0 0 = c1Base 2 16 none ∧
    (c1State 4 2 16 none).generate_mipmap.2.1.image_info_at_face 0 1 = c1Derived 2 none 8 ∧
    (c1State 4 2 16 none).generate_mipmap.2.1.image_info_at_face 0 2 = c1Derived 2 none 4 ∧
    (c1State 4 2 16 none).generate_mipmap.2.1.image_info_at_face 0 3 = c1Derived 2 none 2 :=
  mip_chain_16_levels 4 2 16 none (by decide) (by decide)

/-- A `u32` power of two is nonzero (the `n != 0` conjunct of the bit
trick). -/
theorem natIsPowerOfTwo_ne_zero {n : Nat} (h : ImageInfo.natIsPowerOfTwo n = true) :
    n ≠ 0 := by
  simp [ImageInfo.natIsPowerOfTwo] at h
  exact h.1

/-- Power-of-two image dimensions are all nonzero. -/
theorem pow2_dims_ne_zero (i : ImageInfo) (h : i.is_power_of_two = true) :
    i.width ≠ 0 ∧ i.height ≠ 0 ∧ i.depth ≠ 0 := by
  rw [ImageInfo.is_power_of_two, Bool.and_eq_true, Bool.and_eq_true] at h
  exact ⟨natIsPowerOfTwo_ne_zero h.1.1, natIsPowerOfTwo_ne_zero h.1.2,
    natIsPowerOfTwo_ne_zero h.2⟩

/-- An image with power-of-two dimensions has at least one mip level. -/
theorem max_levels_ne_zero (i : ImageInfo) (h : i.is_power_of_two = true) :
    i.get_max_mimap_levels ≠ 0 := by
  obtain ⟨hw, _, _⟩ := pow2_dims_ne_zero i h
  unfold ImageInfo.get_max_mimap_levels
  have hmax : max (max i.width i.height) i.depth ≠ 0 := by
    rw [Ne, Nat.max_eq_zero_iff, Nat.max_eq_zero_iff]
    intro hz
    exact hw hz.1.1
  simp [hmax]

/-- `populate_mip_chain` succeeds whenever the reference entry is
initialized with nonzero dimensions. -/
theorem populate_mip_chain_ok (s : WebGLTextureState) (first_level last_level : Nat)
    (h1 : (s.image_info_at_face 0 first_level).is_initialized = true)
    (h2 : (s.image_info_at_face 0 first_level).width ≠ 0)
    (h3 : (s.image_info_at_face 0 first_level).height ≠ 0) :
    (s.populate_mip_chain first_level last_level).1 = .ok () := by
  unfold WebGLTextureState.populate_mip_chain
  simp [h1, h2, h3]

/-- C2: `generate_mipmap` emits the `GenerateMipmap` command iff it returns
`Ok`.  Every failing call returns `InvalidOperation` with an empty trace,
and the two error branches placed after the emission (zero max-levels and
`populate_mip_chain` failure) are unreachable once the power-of-two check
has passed, since power-of-two dimensions are nonzero. -/
theorem generate_mipmap_emits_iff_ok (s : WebGLTextureState) :
    (s.generate_mipmap.1 = .ok () ↔ s.generate_mipmap.2.2 ≠ []) ∧
    (s.generate_mipmap.1 ≠ .ok () →
      s.generate_mipmap.1 = .error .InvalidOperation ∧ s.generate_mipmap.2.2 = []) ∧
    (∀ t : Nat, s.target = some t → s.generate_mipmap.1 = .ok () →
      s.generate_mipmap.2.2 = [TexEvent.cmd (.GenerateMipmap t)]) := by
  cases htarget : s.target with
  | none =>
    refine ⟨?_, ?_, ?_⟩ <;> simp [WebGLTextureState.generate_mipmap, htarget]
  | some t =>
    cases hinit : s.base_image_info.is_initialized with
    | false =>
      refine ⟨?_, ?_, ?_⟩ <;> simp [WebGLTextureState.generate_mipmap, htarget, hinit]
    | true =>
      by_cases hcube : t = constants.TEXTURE_CUBE_MAP ∧ ¬ s.is_cube_complete = true
      · refine ⟨?_, ?_, ?_⟩ <;>
          simp [WebGLTextureState.generate_mipmap, htarget, hinit, hcube]
      · cases hpow : s.base_image_info.is_power_of_two with
        | false =>
          refine ⟨?_, ?_, ?_⟩ <;>
            simp [WebGLTextureState.generate_mipmap, htarget, hinit, hcube, hpow]
        | true =>
          cases hcomp : s.base_image_info.is_compressed_format with
          | true =>
            refine ⟨?_, ?_, ?_⟩ <;>
              simp [WebGLTextureState.generate_mipmap, htarget, hinit, hcube, hpow, hcomp]
          | false =>
            simp only [Bool.not_eq_true] at hcube
            obtain ⟨hw, hh, _⟩ := pow2_dims_ne_zero _ hpow
            have hlvl : ¬ (s.base_mipmap_level +
                s.base_image_info.get_max_mimap_levels = 0) := by
              have := max_levels_ne_zero _ hpow
              omega
            have hpop : (s.populate_mip_chain s.base_mipmap_level
                (s.base_mipmap_level + s.base_image_info.get_max_mimap_levels - 1)).1 =
                .ok () :=
              populate_mip_chain_ok s _ _ hinit hw hh
            refine ⟨?_, ?_, ?_⟩ <;>
              simp [WebGLTextureState.generate_mipmap, htarget, hinit, hcube, hpow,
                hcomp, hlvl, hpop]

/-- C2 witness: a successful call (bound 8 × 8 2D base) emits exactly the
mipmap command, and a failing call (fresh unbound texture) emits nothing. -/
theorem generate_mipmap_emits_iff_ok_witness :
    (((WebGLTextureState.new_inherited 2).bind constants.TEXTURE_2D).2.1.initialize_image
        .Texture2D 8 8 1 ⟨0, false⟩ 0 none).2.generate_mipmap.2.2 =
      [TexEvent.cmd (.GenerateMipmap constants.TEXTURE_2D)] ∧
    (WebGLTextureState.new_inherited 1).generate_mipmap.2.2 = [] :=
  ⟨(generate_mipmap_emits_iff_ok
      (((WebGLTextureState.new_inherited 2).bind constants.TEXTURE_2D).2.1.initialize_image
        .Texture2D 8 8 1 ⟨0, false⟩ 0 none).2).2.2 constants.TEXTURE_2D rfl rfl,
   ((generate_mipmap_emits_iff_ok (WebGLTextureState.new_inherited 1)).2.1
      (fun h => Except.noConfusion h)).2⟩

/-- C3: for a texture with six faces, the cube-completeness check passes iff
every face at the base level is defined, shares the base face's internal
format, and has both width and height equal to the base face's width (the
height is compared against the width, enforcing square faces); and for a
cube-map-bound texture any such mismatch makes `generate_mipmap` return
`InvalidOperation` with state and trace untouched. -/
theorem cube_complete_characterization (s : WebGLTextureState) (hfc : s.face_count = 6) :
    (s.is_cube_complete = true ↔
      ∀ face : Nat, face < 6 →
        (s.image_info_at_face face s.base_mipmap_level).is_defined = true ∧
        (s.image_info_at_face face s.base_mipmap_level).internal_format =
          s.base_image_info.internal_format ∧
        (s.image_info_at_face face s.base_mipmap_level).width = s.base_image_info.width ∧
        (s.image_info_at_face face s.base_mipmap_level).height = s.base_image_info.width) ∧
    (s.target = some constants.TEXTURE_CUBE_MAP → s.is_cube_complete = false →
      s.generate_mipmap = (.error .InvalidOperation, s, [])) := by
  constructor
  · constructor
    · intro h
      rw [WebGLTextureState.is_cube_complete] at h
      simp only [hfc] at h
      split at h
      · exact absurd h (by simp)
      · simp only [List.all_eq_true, List.mem_range] at h
        intro face hface
        have hf := h face hface
        simp only [Bool.and_eq_true, beq_iff_eq, decide_eq_true_eq] at hf
        exact ⟨hf.1.1.1, hf.1.1.2, hf.1.2, hf.2⟩
    · intro h
      have h0 := h 0 (by omega)
      rw [WebGLTextureState.is_cube_complete]
      simp only [hfc]
      have hdef : s.base_image_info.is_defined = true := h0.1
      rw [if_neg (not_not_intro hdef)]
      simp only [List.all_eq_true, List.mem_range]
      intro face hface
      have hf := h face hface
      simp only [Bool.and_eq_true, beq_iff_eq, decide_eq_true_eq]
      exact ⟨⟨⟨hf.1, hf.2.1⟩, hf.2.2.1⟩, hf.2.2.2⟩
  · intro htarget hfalse
    cases hinit : s.base_image_info.is_initialized with
    | false => simp [WebGLTextureState.generate_mipmap, htarget, hinit]
    | true => simp [WebGLTextureState.generate_mipmap, htarget, hinit, hfalse]

/-- C3 witness: a cube-bound texture with only the +X face uploaded is not
cube-complete (face 1 fails the face predicate), and `generate_mipmap` on it
fails with `InvalidOperation`, leaving state and trace untouched. -/
theorem cube_complete_characterization_witness :
    (¬ ((((WebGLTextureState.new_inherited 2).bind
        constants.TEXTURE_CUBE_MAP).2.1.initialize_image
        .CubeMapPositiveX 8 8 1 ⟨0, false⟩ 0 none).2.image_info_at_face 1
          (((WebGLTextureState.new_inherited 2).bind
            constants.TEXTURE_CUBE_MAP).2.1.initialize_image
            .CubeMapPositiveX 8 8 1 ⟨0, false⟩ 0 none).2.base_mipmap_level).is_defined
        = true) ∧
    (((WebGLTextureState.new_inherited 2).bind
        constants.TEXTURE_CUBE_MAP).2.1.initialize_image
        .CubeMapPositiveX 8 8 1 ⟨0, false⟩ 0 none).2.generate_mipmap =
      (.error .InvalidOperation,
        (((WebGLTextureState.new_inherited 2).bind
          constants.TEXTURE_CUBE_MAP).2.1.initialize_image
          .CubeMapPositiveX 8 8 1 ⟨0, false⟩ 0 none).2, []) := by
  refine ⟨fun h => Bool.noConfusion h, ?_⟩
  exact (cube_complete_characterization
    ((((WebGLTextureState.new_inherited 2).bind
      constants.TEXTURE_CUBE_MAP).2.1.initialize_image
      .CubeMapPositiveX 8 8 1 ⟨0, false⟩ 0 none).2) rfl).2 rfl rfl

/-- Membership in the six legal min-filter enumerators, as the disjunction
the source's match arms test. -/
theorem mem_minFilterValues_iff (v : Nat) :
    v ∈ minFilterValues ↔
      (v = constants.NEAREST ∨ v = constants.LINEAR ∨
       v = constants.NEAREST_MIPMAP_NEAREST ∨ v = constants.LINEAR_MIPMAP_NEAREST ∨
       v = constants.NEAREST_MIPMAP_LINEAR ∨ v = constants.LINEAR_MIPMAP_LINEAR) := by
  simp [minFilterValues]

/-- C8: on a bound texture, `tex_parameter` with the min-filter param
succeeds exactly for the six filter enumerators (as `u32` reinterpretations
of the supplied `i32`) and fails `InvalidEnum` for every other value; an
unchanged value succeeds emitting nothing, a changed value stores the filter
and emits exactly one set-parameter command, and repeating the same legal
value on the updated state emits nothing — so two identical legal sets emit
one command. -/
theorem min_filter_param (s : WebGLTextureState) (t : Nat) (i : Int)
    (htarget : s.target = some t) :
    (WebGLTextureState.u32_of_i32 i ∉ minFilterValues →
      s.tex_parameter constants.TEXTURE_MIN_FILTER (.Int i) =
        some (.error .InvalidEnum, s, [])) ∧
    (WebGLTextureState.u32_of_i32 i ∈ minFilterValues →
      s.min_filter = WebGLTextureState.u32_of_i32 i →
      s.tex_parameter constants.TEXTURE_MIN_FILTER (.Int i) = some (.ok (), s, [])) ∧
    (WebGLTextureState.u32_of_i32 i ∈ minFilterValues →
      s.min_filter ≠ WebGLTextureState.u32_of_i32 i →
      s.tex_parameter constants.TEXTURE_MIN_FILTER (.Int i) =
        some (.ok (), { s with min_filter := WebGLTextureState.u32_of_i32 i },
          [.cmd (.TexParameteri t constants.TEXTURE_MIN_FILTER i)])) ∧
    (WebGLTextureState.u32_of_i32 i ∈ minFilterValues →
      ({ s with min_filter := WebGLTextureState.u32_of_i32 i } :
          WebGLTextureState).tex_parameter constants.TEXTURE_MIN_FILTER (.Int i) =
        some (.ok (), { s with min_filter := WebGLTextureState.u32_of_i32 i }, [])) := by
  have htarget2 : ({ s with min_filter := WebGLTextureState.u32_of_i32 i } :
      WebGLTextureState).target = some t := htarget
  refine ⟨?_, ?_, ?_, ?_⟩
  · intro hnot
    rw [mem_minFilterValues_iff] at hnot
    simp [WebGLTextureState.tex_parameter, htarget, hnot]
  · intro hmem heq
    rw [mem_minFilterValues_iff] at hmem
    simp [WebGLTextureState.tex_parameter, htarget, hmem,
      WebGLTextureState.update_filter, WebGLTextureState.filter_get, heq]
  · intro hmem hne
    rw [mem_minFilterValues_iff] at hmem
    simp [WebGLTextureState.tex_parameter, htarget, hmem,
      WebGLTextureState.update_filter, WebGLTextureState.filter_get,
      WebGLTextureState.filter_set, hne]
  · intro hmem
    rw [mem_minFilterValues_iff] at hmem
    have hflt : ({ s with min_filter := WebGLTextureState.u32_of_i32 i } :
        WebGLTextureState).min_filter = WebGLTextureState.u32_of_i32 i := rfl
    simp [WebGLTextureState.tex_parameter, htarget, htarget2, hmem,
      WebGLTextureState.update_filter, WebGLTextureState.filter_get, hflt]

/-- C8 witness: on a freshly bound 2D texture (stored min filter
`NEAREST_MIPMAP_LINEAR`), value 5 is rejected `InvalidEnum`; setting
`NEAREST` stores it and emits one command; setting `NEAREST` again on the
updated state emits nothing. -/
theorem min_filter_param_witness :
    (((WebGLTextureState.new_inherited 1).bind
        constants.TEXTURE_2D).2.1.tex_parameter constants.TEXTURE_MIN_FILTER
        (.Int 5) =
      some (.error .InvalidEnum,
        ((WebGLTextureState.new_inherited 1).bind constants.TEXTURE_2D).2.1, [])) ∧
    (((WebGLTextureState.new_inherited 1).bind
        constants.TEXTURE_2D).2.1.tex_parameter constants.TEXTURE_MIN_FILTER
        (.Int 9728) =
      some (.ok (),
        { ((WebGLTextureState.new_inherited 1).bind constants.TEXTURE_2D).2.1 with
          min_filter := WebGLTextureState.u32_of_i32 9728 },
        [.cmd (.TexParameteri constants.TEXTURE_2D constants.TEXTURE_MIN_FILTER 9728)])) ∧
    (({ ((WebGLTextureState.new_inherited 1).bind constants.TEXTURE_2D).2.1 with
          min_filter := WebGLTextureState.u32_of_i32 9728 } :
        WebGLTextureState).tex_parameter constants.TEXTURE_MIN_FILTER (.Int 9728) =
      some (.ok (),
        { ((WebGLTextureState.new_inherited 1).bind constants.TEXTURE_2D).2.1 with
          min_filter := WebGLTextureState.u32_of_i32 9728 }, [])) :=
  ⟨(min_filter_param ((WebGLTextureState.new_inherited 1).bind
      constants.TEXTURE_2D).2.1 constants.TEXTURE_2D 5 rfl).1 (by decide),
   (min_filter_param ((WebGLTextureState.new_inherited 1).bind
      constants.TEXTURE_2D).2.1 constants.TEXTURE_2D 9728 rfl).2.2.1 (by decide)
      (by decide),
   (min_filter_param ((WebGLTextureState.new_inherited 1).bind
      constants.TEXTURE_2D).2.1 constants.TEXTURE_2D 9728 rfl).2.2.2 (by decide)⟩

/-- C9: on a bound texture, the anisotropy extension param returns
`InvalidValue` exactly when the float value does not satisfy the IEEE
comparison `v >= 1` (rejecting every value below 1 and NaN, whose
comparisons are false), and for `v >= 1` it succeeds, emitting one
float-valued set-parameter command with the state — filters included —
untouched. -/
theorem anisotropy_param (s : WebGLTextureState) (t : Nat) (f : F32)
    (htarget : s.target = some t) :
    (s.tex_parameter constants.TEXTURE_MAX_ANISOTROPY_EXT (.Float f) =
        some (.error .InvalidValue, s, []) ↔ f.ge1 = false) ∧
    (f.ge1 = true →
      s.tex_parameter constants.TEXTURE_MAX_ANISOTROPY_EXT (.Float f) =
        some (.ok (), s,
          [.cmd (.TexParameterf t constants.TEXTURE_MAX_ANISOTROPY_EXT f)])) ∧
    F32.nan.ge1 = false ∧
    (∀ q : ℚ, F32.ge1 (.finite q) = true ↔ 1 ≤ q) := by
  have h1 : ¬ (constants.TEXTURE_MAX_ANISOTROPY_EXT = constants.TEXTURE_MIN_FILTER) := by
    decide
  have h2 : ¬ (constants.TEXTURE_MAX_ANISOTROPY_EXT = constants.TEXTURE_MAG_FILTER) := by
    decide
  have h3 : ¬ (constants.TEXTURE_MAX_ANISOTROPY_EXT = constants.TEXTURE_WRAP_S ∨
      constants.TEXTURE_MAX_ANISOTROPY_EXT = constants.TEXTURE_WRAP_T) := by decide
  refine ⟨?_, ?_, rfl, ?_⟩
  · cases hge : f.ge1 with
    | false => simp [WebGLTextureState.tex_parameter, htarget, h1, h2, h3, hge]
    | true => simp [WebGLTextureState.tex_parameter, htarget, h1, h2, h3, hge]
  · intro hge
    simp [WebGLTextureState.tex_parameter, htarget, h1, h2, h3, hge]
  · intro q
    simp [F32.ge1]

/-- C9 witness: on a bound texture, 0.5 is rejected `InvalidValue`, NaN is
rejected `InvalidValue`, and 1.0 succeeds with one float command. -/
theorem anisotropy_param_witness :
    (((WebGLTextureState.new_inherited 1).bind
        constants.TEXTURE_2D).2.1.tex_parameter constants.TEXTURE_MAX_ANISOTROPY_EXT
        (.Float (.finite (1 / 2))) =
      some (.error .InvalidValue,
        ((WebGLTextureState.new_inherited 1).bind constants.TEXTURE_2D).2.1, [])) ∧
    (((WebGLTextureState.new_inherited 1).bind
        constants.TEXTURE_2D).2.1.tex_parameter constants.TEXTURE_MAX_ANISOTROPY_EXT
        (.Float .nan) =
      some (.error .InvalidValue,
        ((WebGLTextureState.new_inherited 1).bind constants.TEXTURE_2D).2.1, [])) ∧
    (((WebGLTextureState.new_inherited 1).bind
        constants.TEXTURE_2D).2.1.tex_parameter constants.TEXTURE_MAX_ANISOTROPY_EXT
        (.Float (.finite 1)) =
      some (.ok (),
        ((WebGLTextureState.new_inherited 1).bind constants.TEXTURE_2D).2.1,
        [.cmd (.TexParameterf constants.TEXTURE_2D
          constants.TEXTURE_MAX_ANISOTROPY_EXT (.finite 1))])) :=
  ⟨(anisotropy_param ((WebGLTextureState.new_inherited 1).bind
      constants.TEXTURE_2D).2.1 constants.TEXTURE_2D (.finite (1 / 2)) rfl).1.mpr
      (by norm_num [F32.ge1]),
   (anisotropy_param ((WebGLTextureState.new_inherited 1).bind
      constants.TEXTURE_2D).2.1 constants.TEXTURE_2D .nan rfl).1.mpr rfl,
   (anisotropy_param ((WebGLTextureState.new_inherited 1).bind
      constants.TEXTURE_2D).2.1 constants.TEXTURE_2D (.finite 1) rfl).2.1
      (by norm_num [F32.ge1])⟩
